import Mathlib

/-!
Shallow embedding of the AnythingLLM client SDK and its method registry
(src/services/anythingllm-sdk.ts) together with the argument pre-fill
logic of the playground UI (src/App.tsx).

The client's methods each perform exactly one `fetch` and then compute a
result (or throw) from the response.  We split every method into

  * a request builder: the `HttpRequest` value handed to `fetch`, and
  * a result function: a pure function from the outcome of that `fetch`
    (either a response, or a rejection of the transport layer) to the
    method's result.

Thrown JavaScript errors are modelled by their message string: the
application reads only the `message` attribute of caught errors, and the
client constructs all of its own errors as `new Error(message)`.
A method that does not wrap its `fetch` in try/catch propagates a
transport rejection unchanged, which the result functions mirror by
returning the rejection's message as the error.
-/

/-- Parsed JSON values, as produced by `response.json()`. -/
inductive Json where
  | null : Json
  | bool (b : Bool) : Json
  | num (n : Int) : Json
  | str (s : String) : Json
  | arr (elems : List Json) : Json
  | obj (fields : List (String × Json)) : Json

/-- JavaScript property access `j.key`: the field's value on an object that
has it, `undefined` (here `none`) otherwise. -/
def Json.getField : Json → String → Option Json
  | .obj fields, key => fields.lookup key
  | _, _ => none

/-- JavaScript truthiness of a JSON value (`null`, `false`, `0` and the
empty string are falsy; arrays and objects are always truthy). -/
def Json.truthy : Json → Bool
  | .null => false
  | .bool b => b
  | .num n => n != 0
  | .str s => s != ""
  | .arr _ => true
  | .obj _ => true

/-- JavaScript `a || b` applied to a possibly-absent field value `a`:
the value when present and truthy, the fallback otherwise (this is the
shape of `data.workspaces || []` and friends in the source). -/
def jsOr (v : Option Json) (fallback : Json) : Json :=
  match v with
  | some x => if x.truthy then x else fallback
  | none => fallback

/-- An HTTP response as the client observes it: status, status text, the
parsed JSON body (`response.json()`), and the raw body text
(`response.text()`). -/
structure HttpResponse where
  status : Nat
  statusText : String
  body : Json
  bodyText : String

/-- `response.ok`: status in the inclusive range 200..299. -/
def HttpResponse.isOk (r : HttpResponse) : Bool :=
  decide (200 ≤ r.status) && decide (r.status ≤ 299)

/-- Outcome of one `fetch` call: a response, or a transport-level
rejection (network unreachable, connection refused, CORS block) carrying
the rejection's message string. -/
inductive FetchOutcome where
  | success (response : HttpResponse) : FetchOutcome
  | failure (message : String) : FetchOutcome

/-- Requests handed to `fetch`: URL, HTTP method, header list, and the
JSON body when one is sent (`JSON.stringify` of an object literal is
modelled by the structured object itself). -/
structure HttpRequest where
  url : String
  method : String
  headers : List (String × String)
  body : Option Json := none

/-- The constructor's host clean-up `host.replace(/\/$/, '')`: the regex
matches a single slash anchored at the end of the string, so exactly one
trailing slash is removed when present.  Stated on the character list of
the string, which is how JavaScript strings behave here (47 is the code
point of the slash). -/
def stripTrailingSlash (host : String) : String :=
  if host.data.getLast? = some (Char.ofNat 47) then String.mk host.data.dropLast else host

/-- JavaScript `String.prototype.trim()`: whitespace removed from both
ends (the source only ever meets ASCII whitespace, which
`Char.isWhitespace` covers). -/
def jsTrim (s : String) : String :=
  String.mk ((s.data.dropWhile Char.isWhitespace).reverse.dropWhile Char.isWhitespace).reverse

/-- The client's instance state: `baseUrl` and `apiKey`, as set by the
constructor. -/
structure AnythingLLMClient where
  baseUrl : String
  apiKey : String
  deriving DecidableEq, Repr

/-- The constructor `new AnythingLLMClient(host, port, apiKey)`. -/
def AnythingLLMClient.init (host port apiKey : String) : AnythingLLMClient :=
  { baseUrl := stripTrailingSlash host ++ ":" ++ port ++ "/api/v1"
    apiKey := jsTrim apiKey }

/-- The `headers` getter: the three fixed headers built from the
instance's configuration. -/
def AnythingLLMClient.headers (c : AnythingLLMClient) : List (String × String) :=
  [("Authorization", "Bearer " ++ c.apiKey),
   ("Content-Type", "application/json"),
   ("Accept", "application/json")]

/-- Request issued by `validateConnection()`. -/
def AnythingLLMClient.validateConnectionRequest (c : AnythingLLMClient) : HttpRequest :=
  { url := c.baseUrl ++ "/auth", method := "GET", headers := c.headers }

/-- Request issued by `getWorkspaces()`. -/
def AnythingLLMClient.getWorkspacesRequest (c : AnythingLLMClient) : HttpRequest :=
  { url := c.baseUrl ++ "/workspaces", method := "GET", headers := c.headers }

/-- Request issued by `getWorkspace(slug)`. -/
def AnythingLLMClient.getWorkspaceRequest (c : AnythingLLMClient) (slug : String) : HttpRequest :=
  { url := c.baseUrl ++ "/workspace/" ++ slug, method := "GET", headers := c.headers }

/-- Request issued by `createWorkspace(name)`. -/
def AnythingLLMClient.createWorkspaceRequest (c : AnythingLLMClient) (name : String) : HttpRequest :=
  { url := c.baseUrl ++ "/workspace/new", method := "POST", headers := c.headers
    body := some (.obj [("name", .str name)]) }

/-- Request issued by `deleteWorkspace(slug)`. -/
def AnythingLLMClient.deleteWorkspaceRequest (c : AnythingLLMClient) (slug : String) : HttpRequest :=
  { url := c.baseUrl ++ "/workspace/" ++ slug, method := "DELETE", headers := c.headers }

/-- Request issued by `updateEmbeddings(slug)`. -/
def AnythingLLMClient.updateEmbeddingsRequest (c : AnythingLLMClient) (slug : String) : HttpRequest :=
  { url := c.baseUrl ++ "/workspace/" ++ slug ++ "/update-embeddings", method := "POST"
    headers := c.headers }

/-- Request issued by `sendChat(slug, message, mode)`; the body is
`JSON.stringify({ message, mode })` and `mode` defaults to `"chat"`. -/
def AnythingLLMClient.sendChatRequest (c : AnythingLLMClient) (slug message : String)
    (mode : String := "chat") : HttpRequest :=
  { url := c.baseUrl ++ "/workspace/" ++ slug ++ "/chat", method := "POST", headers := c.headers
    body := some (.obj [("message", .str message), ("mode", .str mode)]) }

/-- Request issued by `getUsers()`. -/
def AnythingLLMClient.getUsersRequest (c : AnythingLLMClient) : HttpRequest :=
  { url := c.baseUrl ++ "/system/users", method := "GET", headers := c.headers }

/-- Return value of `validateConnection()`. -/
structure ValidateResult where
  authenticated : Bool
  error : Option String := none
  deriving DecidableEq, Repr

/-- Result of `validateConnection()` from the outcome of its fetch.  The
whole body is wrapped in try/catch, so a transport rejection is caught
and becomes `authenticated = false` with `error.message || 'Network
Error'` (an empty message is falsy in JavaScript). -/
def validateConnectionResult : FetchOutcome → ValidateResult
  | .failure message =>
      { authenticated := false
        error := some (if message = "" then "Network Error" else message) }
  | .success r =>
      if r.status = 200 then
        { authenticated := true }
      else if r.status = 401 ∨ r.status = 403 then
        { authenticated := false, error := some "Invalid API Key" }
      else
        { authenticated := false
          error := some ("Server returned " ++ toString r.status ++ " " ++ r.statusText) }

/-- Result of `getWorkspaces()`: no try/catch, so a transport rejection
propagates unchanged; a non-ok response throws `Error(statusText)`;
otherwise `data.workspaces || []`. -/
def getWorkspacesResult : FetchOutcome → Except String Json
  | .failure message => .error message
  | .success r =>
      if r.isOk then .ok (jsOr (r.body.getField "workspaces") (.arr []))
      else .error r.statusText

/-- The ASCII apostrophe character, written by code point. -/
def squote : String := String.singleton (Char.ofNat 39)

/-- Result of `getWorkspace(slug)`: a non-ok response throws an error
quoting the slug (between apostrophes in the source message); otherwise
`data.workspace` (possibly `undefined`, hence `Option`). -/
def getWorkspaceResult (slug : String) : FetchOutcome → Except String (Option Json)
  | .failure message => .error message
  | .success r =>
      if r.isOk then .ok (r.body.getField "workspace")
      else .error ("Workspace " ++ squote ++ slug ++ squote ++ " not found or error.")

/-- Result of `createWorkspace(name)`: a non-ok response throws with the
response body text appended; otherwise `data.workspace`. -/
def createWorkspaceResult : FetchOutcome → Except String (Option Json)
  | .failure message => .error message
  | .success r =>
      if r.isOk then .ok (r.body.getField "workspace")
      else .error ("Failed to create workspace: " ++ r.bodyText)

/-- Return value of `deleteWorkspace(slug)` (the declared `message`
field is never set by the implementation, so it is omitted here). -/
structure DeleteResult where
  success : Bool
  deriving DecidableEq, Repr

/-- Result of `deleteWorkspace(slug)`: `{ success: true }` on an ok
response, otherwise a thrown error with the response body text. -/
def deleteWorkspaceResult : FetchOutcome → Except String DeleteResult
  | .failure message => .error message
  | .success r =>
      if r.isOk then .ok { success := true }
      else .error ("Failed to delete workspace: " ++ r.bodyText)

/-- Return value of `updateEmbeddings(slug)`. -/
structure UpdateEmbeddingsResult where
  success : Bool
  response : Json

/-- Result of `updateEmbeddings(slug)`. -/
def updateEmbeddingsResult : FetchOutcome → Except String UpdateEmbeddingsResult
  | .failure message => .error message
  | .success r =>
      if r.isOk then .ok { success := true, response := r.body }
      else .error ("Failed to update embeddings: " ++ r.bodyText)

/-- Return value of `sendChat`: `textResponse` is `data.textResponse`
(possibly `undefined`), `sources` is `data.sources || []`. -/
structure ChatResult where
  textResponse : Option Json
  sources : Json

/-- Result of `sendChat(slug, message, mode)`: a non-ok response throws
`Chat failed ({status}): {body text}`; otherwise the unwrapped record. -/
def sendChatResult : FetchOutcome → Except String ChatResult
  | .failure message => .error message
  | .success r =>
      if r.isOk then
        .ok { textResponse := r.body.getField "textResponse"
              sources := jsOr (r.body.getField "sources") (.arr []) }
      else .error ("Chat failed (" ++ toString r.status ++ "): " ++ r.bodyText)

/-- Result of `getUsers()`: a non-ok response throws the fixed
admin-privilege hint with the status text appended; otherwise
`data.users || []`. -/
def getUsersResult : FetchOutcome → Except String Json
  | .failure message => .error message
  | .success r =>
      if r.isOk then .ok (jsOr (r.body.getField "users") (.arr []))
      else .error ("Failed to fetch users (May require Admin privilege): " ++ r.statusText)

/-- Parameter type tags of the registry (`SDKParamType` in src/types.ts). -/
inductive SDKParamType where
  | string : SDKParamType
  | number : SDKParamType
  | boolean : SDKParamType
  | slug : SDKParamType
  | json : SDKParamType
  deriving DecidableEq, Repr

/-- A registry parameter (`SDKMethodParam` in src/types.ts).  The
`defaultValue` field is `any` in the source but the registry only ever
declares string defaults, so it is modelled as an optional string;
`none` stands for JavaScript `undefined`. -/
structure SDKMethodParam where
  name : String
  type : SDKParamType
  required : Bool
  description : Option String := none
  defaultValue : Option String := none
  deriving DecidableEq, Repr

/-- A registry entry (`SDKMethodDefinition` in src/types.ts). -/
structure SDKMethodDefinition where
  method : String
  label : String
  description : String
  params : List SDKMethodParam
  deriving DecidableEq, Repr

/-- The method registry `SDK_METHODS`, transcribed entry by entry from
src/services/anythingllm-sdk.ts. -/
def SDK_METHODS : List SDKMethodDefinition :=
  [{ method := "getWorkspaces"
     label := "Get All Workspaces"
     description := "List all available workspaces in this instance."
     params := [] },
   { method := "getWorkspace"
     label := "Get Workspace Details"
     description := "Get metadata about a specific workspace."
     params := [{ name := "slug", type := .slug, required := true
                  description := some "Workspace Slug (e.g. my-chat)" }] },
   { method := "createWorkspace"
     label := "Create Workspace"
     description := "Create a new empty workspace."
     params := [{ name := "name", type := .string, required := true
                  description := some "New Workspace Name" }] },
   { method := "deleteWorkspace"
     label := "Delete Workspace"
     description := "Permanently delete a workspace."
     params := [{ name := "slug", type := .slug, required := true
                  description := some "Slug to delete" }] },
   { method := "updateEmbeddings"
     label := "Update Embeddings"
     description := "Force a re-sync of the vector database for this workspace."
     params := [{ name := "slug", type := .slug, required := true
                  description := some "Target Workspace" }] },
   { method := "sendChat"
     label := "Send Chat Message"
     description := "Send a prompt to a workspace."
     params := [{ name := "slug", type := .slug, required := true
                  description := some "Target Workspace" },
                { name := "message", type := .string, required := true
                  description := some "Your prompt" },
                { name := "mode", type := .string, required := true
                  defaultValue := some "chat"
                  description := some "\x22chat\x22 or \x22query\x22" }] },
   { method := "getUsers"
     label := "Get Users (Admin)"
     description := "List all registered users."
     params := [] }]

/-- The operations the `AnythingLLMClient` class exposes, each with its
positional parameter names, transcribed from the method declarations of
the class in src/services/anythingllm-sdk.ts. -/
def clientOperations : List (String × List String) :=
  [("validateConnection", []),
   ("getWorkspaces", []),
   ("getWorkspace", ["slug"]),
   ("createWorkspace", ["name"]),
   ("deleteWorkspace", ["slug"]),
   ("updateEmbeddings", ["slug"]),
   ("sendChat", ["slug", "message", "mode"]),
   ("getUsers", [])]

/-- The value the pre-fill effect in src/App.tsx assigns to one
parameter: the current workspace slug (`config.model`) for a parameter
of type `slug` when that slug is a non-empty (truthy) string, else the
parameter's own `defaultValue` when declared, else the empty string. -/
def prefillValue (param : SDKMethodParam) (model : String) : String :=
  if param.type = .slug ∧ model ≠ "" then model
  else
    match param.defaultValue with
    | some v => v
    | none => ""

/-- The `initialArgs` record built by the pre-fill effect in src/App.tsx
for a selected registry entry: one binding per declared parameter, in
declaration order.  The record keyed by parameter name is modelled as an
association list; parameter names are distinct within every registry
entry, so `List.lookup` agrees with the record. -/
def prefillMethodArgs (definition : SDKMethodDefinition) (model : String) :
    List (String × String) :=
  definition.params.map fun param => (param.name, prefillValue param model)

/-- C1 counterexample: 204 is a 2xx status, yet `validateConnection`
reports `authenticated = false` with a "Server returned" error for it,
because the code tests `status === 200` exactly; this refutes the claim
that every 2xx response yields `authenticated = true`. -/
theorem validateConnection_c1_counterexample :
    (200 ≤ 204 ∧ 204 ≤ 299) ∧
    validateConnectionResult
        (.success { status := 204, statusText := "No Content", body := .null, bodyText := "" })
      = { authenticated := false, error := some "Server returned 204 No Content" } :=
  ⟨by decide, rfl⟩

/-- C1 amended: `validateConnection` never throws; a 200 response yields
`authenticated = true`; 401/403 yield `authenticated = false` with the
fixed "Invalid API Key" error; every other status — including 2xx codes
other than 200 — yields `authenticated = false` with an error carrying
the literal status code and status text; a transport failure yields
`authenticated = false` with the failure's message, or "Network Error"
when that message is empty. -/
theorem validateConnection_c1_amended :
    ∀ (r : HttpResponse) (m : String),
      (r.status = 200 →
        validateConnectionResult (.success r) = { authenticated := true, error := none }) ∧
      (r.status = 401 ∨ r.status = 403 →
        validateConnectionResult (.success r)
          = { authenticated := false, error := some "Invalid API Key" }) ∧
      (r.status ≠ 200 → ¬(r.status = 401 ∨ r.status = 403) →
        validateConnectionResult (.success r)
          = { authenticated := false
              error := some ("Server returned " ++ toString r.status ++ " " ++ r.statusText) }) ∧
      (validateConnectionResult (.failure m)
        = { authenticated := false
            error := some (if m = "" then "Network Error" else m) }) ∧
      ((validateConnectionResult (.success r)).authenticated = true ↔ r.status = 200) ∧
      (validateConnectionResult (.failure m)).authenticated = false := by
  intro r m
  refine ⟨?_, ?_, ?_, rfl, ?_, rfl⟩
  · intro h
    simp [validateConnectionResult, h]
  · rintro (h | h) <;> simp [validateConnectionResult, h]
  · intro h1 h2
    simp [validateConnectionResult, h1, h2]
  · by_cases h1 : r.status = 200
    · simp [validateConnectionResult, h1]
    · by_cases h2 : r.status = 401 ∨ r.status = 403 <;>
        simp [validateConnectionResult, h1, h2]

/-- C1 witness: the amended theorem applied to a 401 response. -/
theorem validateConnection_c1_amended_witness :
    validateConnectionResult
        (.success { status := 401, statusText := "Unauthorized", body := .null, bodyText := "" })
      = { authenticated := false, error := some "Invalid API Key" } :=
  ((validateConnection_c1_amended
      { status := 401, statusText := "Unauthorized", body := .null, bodyText := "" } "").2.1
    (Or.inl rfl))

/-- C2 counterexample: `getWorkspaces` does not catch transport
failures — a transport rejection whose message is "Internal Server
Error" and an HTTP 500 response with that status text surface the very
same error, so the failure is neither caught by the client, nor
surfaced distinctly from an HTTP-level non-2xx response, nor given any
remediation guidance (the surfaced text is exactly the raw transport
message, as the third conjunct shows for the browser's stock
"Failed to fetch" message). -/
theorem transportError_c2_counterexample :
    getWorkspacesResult (.failure "Internal Server Error") = .error "Internal Server Error" ∧
    getWorkspacesResult
        (.success { status := 500, statusText := "Internal Server Error", body := .null
                    bodyText := "" })
      = .error "Internal Server Error" ∧
    getWorkspacesResult (.failure "Failed to fetch") = .error "Failed to fetch" :=
  ⟨rfl, rfl, rfl⟩

/-- C2 amended: only `validateConnection` catches transport failures
(mapping them to `authenticated = false` with the failure's message or
"Network Error"); every other client operation propagates the transport
rejection unchanged — the surfaced error is exactly the fetch
primitive's own message, with no remediation guidance added and no
distinction in kind from an HTTP-level error with the same message. -/
theorem transportError_c2_amended :
    ∀ (m slug : String),
      getWorkspacesResult (.failure m) = .error m ∧
      getWorkspaceResult slug (.failure m) = .error m ∧
      createWorkspaceResult (.failure m) = .error m ∧
      deleteWorkspaceResult (.failure m) = .error m ∧
      updateEmbeddingsResult (.failure m) = .error m ∧
      sendChatResult (.failure m) = .error m ∧
      getUsersResult (.failure m) = .error m ∧
      validateConnectionResult (.failure m)
        = { authenticated := false, error := some (if m = "" then "Network Error" else m) } :=
  fun _ _ => ⟨rfl, rfl, rfl, rfl, rfl, rfl, rfl, rfl⟩

/-- C3: every entry of the method registry names an operation that the
client class exposes, and the entry's declared parameter names, in
order, are exactly the positional parameters of that operation. -/
theorem sdkMethods_c3_registry_invariant :
    ∀ d ∈ SDK_METHODS, clientOperations.lookup d.method = some (d.params.map (·.name)) := by
  decide

/-- C3 witness: the registry invariant applied to the `sendChat` entry. -/
theorem sdkMethods_c3_registry_invariant_witness :
    clientOperations.lookup "sendChat" = some ["slug", "message", "mode"] := by
  have h := sdkMethods_c3_registry_invariant (SDK_METHODS.get ⟨5, by decide⟩) (by decide)
  exact h

/-- C4: `sendChat` issues a POST whose JSON body holds the message and
the literal mode string passed, the omitted mode defaults to "chat",
and a non-2xx response fails with an error carrying the status code and
the response body text. -/
theorem sendChat_c4_mode_default_and_error :
    ∀ (c : AnythingLLMClient) (slug message mode : String),
      (c.sendChatRequest slug message mode).method = "POST" ∧
      (c.sendChatRequest slug message mode).body
        = some (.obj [("message", .str message), ("mode", .str mode)]) ∧
      c.sendChatRequest slug message = c.sendChatRequest slug message "chat" ∧
      (∀ r : HttpResponse, r.isOk = false →
        sendChatResult (.success r)
          = .error ("Chat failed (" ++ toString r.status ++ "): " ++ r.bodyText)) := by
  intro c slug message mode
  refine ⟨rfl, rfl, rfl, ?_⟩
  intro r h
  simp [sendChatResult, h]

/-- C4 witness: the theorem applied to a concrete client and a 500
response with body text "boom". -/
theorem sendChat_c4_witness :
    sendChatResult
        (.success { status := 500, statusText := "Internal Server Error", body := .null
                    bodyText := "boom" })
      = .error "Chat failed (500): boom" := by
  have h := (sendChat_c4_mode_default_and_error
      (AnythingLLMClient.init "http://localhost" "3001" "k") "ws" "hi" "query").2.2.2
      { status := 500, statusText := "Internal Server Error", body := .null, bodyText := "boom" }
      (by decide)
  exact h

/-- C5: `deleteWorkspace` returns `{ success := true }` exactly when
the DELETE response is 2xx; every non-2xx response makes it fail with
an error that includes the response body text, so deleting a slug the
server answers non-2xx for (already deleted or absent) fails rather
than succeeding silently. -/
theorem deleteWorkspace_c5_success_iff_ok :
    ∀ fr : FetchOutcome,
      (deleteWorkspaceResult fr = .ok { success := true } ↔
        ∃ r : HttpResponse, fr = .success r ∧ r.isOk = true) ∧
      (∀ r : HttpResponse, fr = .success r → r.isOk = false →
        deleteWorkspaceResult fr = .error ("Failed to delete workspace: " ++ r.bodyText)) := by
  intro fr
  constructor
  · cases fr with
    | failure m =>
      constructor
      · intro h
        exact absurd h (by simp [deleteWorkspaceResult])
      · rintro ⟨r, hr, -⟩
        cases hr
    | success r =>
      by_cases h : r.isOk
      · simp [deleteWorkspaceResult, h]
      · have h' : r.isOk = false := by simpa using h
        simp [deleteWorkspaceResult, h']
  · rintro r rfl h
    simp [deleteWorkspaceResult, h]

/-- C5 witness: a 404 with body text reporting the absent slug makes
the delete fail with that body text, not succeed. -/
theorem deleteWorkspace_c5_witness :
    deleteWorkspaceResult
        (.success { status := 404, statusText := "Not Found", body := .null
                    bodyText := "Workspace absent-slug not found" })
      = .error "Failed to delete workspace: Workspace absent-slug not found" := by
  have h := (deleteWorkspace_c5_success_iff_ok
      (.success { status := 404, statusText := "Not Found", body := .null
                  bodyText := "Workspace absent-slug not found" })).2
      { status := 404, statusText := "Not Found", body := .null
        bodyText := "Workspace absent-slug not found" } rfl (by decide)
  exact h

/-- C6: `getWorkspaces` returns the server-provided workspace list in
order on a 2xx response (an empty list on an empty-workspace server,
not an error), and fails with an error carrying the HTTP status text on
a non-2xx response. -/
theorem getWorkspaces_c6_list_or_statusText :
    ∀ (r : HttpResponse) (xs : List Json),
      (r.isOk = true → r.body.getField "workspaces" = some (.arr xs) →
        getWorkspacesResult (.success r) = .ok (.arr xs)) ∧
      (r.isOk = false → getWorkspacesResult (.success r) = .error r.statusText) := by
  intro r xs
  constructor
  · intro hok hfield
    simp [getWorkspacesResult, hok, hfield, jsOr, Json.truthy]
  · intro h
    simp [getWorkspacesResult, h]

/-- C6 witness: an empty-workspace server (body `{workspaces: []}`)
yields the empty list, not an error. -/
theorem getWorkspaces_c6_witness :
    getWorkspacesResult
        (.success { status := 200, statusText := "OK"
                    body := .obj [("workspaces", .arr [])], bodyText := "" })
      = .ok (.arr []) := by
  have h := (getWorkspaces_c6_list_or_statusText
      { status := 200, statusText := "OK", body := .obj [("workspaces", .arr [])], bodyText := "" }
      []).1 (by decide) rfl
  exact h

/-- Comparison definition following the spec's words, for the
refinement check of the base-path claim: the host with every trailing
slash removed. -/
def specStripTrailingSlashes (host : String) : String :=
  String.mk (host.toList.reverse.dropWhile (fun c => c == '/')).reverse

/-- C7 counterexample: the constructor removes at most one trailing
slash — for host "http://h//" the base path keeps a trailing slash of
the host, so it is not the host with any trailing slash removed; and
the Authorization header carries the trimmed token, not the token
passed verbatim. -/
theorem baseUrl_c7_counterexample :
    (AnythingLLMClient.init "http://h//" "3001" "key").baseUrl = "http://h/:3001/api/v1" ∧
    specStripTrailingSlashes "http://h//" ++ ":" ++ "3001" ++ "/api/v1" = "http://h:3001/api/v1" ∧
    ("http://h/:3001/api/v1" : String) ≠ "http://h:3001/api/v1" ∧
    (AnythingLLMClient.init "http://h" "3001" " key ").headers
      = [("Authorization", "Bearer key"),
         ("Content-Type", "application/json"),
         ("Accept", "application/json")] ∧
    ("Bearer key" : String) ≠ "Bearer " ++ " key " := by
  refine ⟨rfl, rfl, by decide, rfl, by decide⟩

/-- C7 amended: every request of every client operation targets
`{host with at most one trailing slash removed}:{port}/api/v1` followed
by the operation's route, and carries exactly the three fixed headers
`Authorization: Bearer {trimmed token}`, `Content-Type:
application/json` and `Accept: application/json` built from the
client's configuration. -/
theorem requests_c7_amended :
    ∀ (host port apiKey slug message mode name : String),
      ((AnythingLLMClient.init host port apiKey).baseUrl
        = stripTrailingSlash host ++ ":" ++ port ++ "/api/v1") ∧
      (host.data.getLast? ≠ some (Char.ofNat 47) → stripTrailingSlash host = host) ∧
      (host.data.getLast? = some (Char.ofNat 47) →
        stripTrailingSlash host = String.mk host.data.dropLast) ∧
      ((AnythingLLMClient.init host port apiKey).headers
        = [("Authorization", "Bearer " ++ jsTrim apiKey),
           ("Content-Type", "application/json"),
           ("Accept", "application/json")]) ∧
      (∀ req ∈ [(AnythingLLMClient.init host port apiKey).validateConnectionRequest,
                (AnythingLLMClient.init host port apiKey).getWorkspacesRequest,
                (AnythingLLMClient.init host port apiKey).getWorkspaceRequest slug,
                (AnythingLLMClient.init host port apiKey).createWorkspaceRequest name,
                (AnythingLLMClient.init host port apiKey).deleteWorkspaceRequest slug,
                (AnythingLLMClient.init host port apiKey).updateEmbeddingsRequest slug,
                (AnythingLLMClient.init host port apiKey).sendChatRequest slug message mode,
                (AnythingLLMClient.init host port apiKey).getUsersRequest],
        req.headers = (AnythingLLMClient.init host port apiKey).headers ∧
        ∃ route, req.url = (AnythingLLMClient.init host port apiKey).baseUrl ++ route) := by
  intro host port apiKey slug message mode name
  refine ⟨rfl, ?_, ?_, rfl, ?_⟩
  · intro h
    simp [stripTrailingSlash, h]
  · intro h
    simp [stripTrailingSlash, h]
  · intro req hreq
    simp only [List.mem_cons, List.not_mem_nil, or_false] at hreq
    rcases hreq with rfl | rfl | rfl | rfl | rfl | rfl | rfl | rfl
    · exact ⟨rfl, "/auth", rfl⟩
    · exact ⟨rfl, "/workspaces", rfl⟩
    · exact ⟨rfl, "/workspace/" ++ slug, (String.append_assoc _ _ _)⟩
    · exact ⟨rfl, "/workspace/new", rfl⟩
    · exact ⟨rfl, "/workspace/" ++ slug, (String.append_assoc _ _ _)⟩
    · refine ⟨rfl, "/workspace/" ++ slug ++ "/update-embeddings", ?_⟩
      simp only [AnythingLLMClient.updateEmbeddingsRequest, String.append_assoc]
    · refine ⟨rfl, "/workspace/" ++ slug ++ "/chat", ?_⟩
      simp only [AnythingLLMClient.sendChatRequest, String.append_assoc]
    · exact ⟨rfl, "/system/users", rfl⟩

/-- C7 witness: the amended theorem at a host with one trailing slash
and an untrimmed token. -/
theorem requests_c7_amended_witness :
    stripTrailingSlash "http://localhost/" = "http://localhost" ∧
    (AnythingLLMClient.init "http://localhost/" "3001" " secret ").headers
      = [("Authorization", "Bearer secret"),
         ("Content-Type", "application/json"),
         ("Accept", "application/json")] := by
  have h := requests_c7_amended "http://localhost/" "3001" " secret " "ws" "hi" "chat" "nm"
  exact ⟨h.2.2.1 rfl, h.2.2.2.1⟩

/-- Association-list lookup of the pre-filled arguments finds, for each
declared parameter (under distinct parameter names), exactly the value
the pre-fill rule assigns to it. -/
theorem lookup_prefill_of_mem (params : List SDKMethodParam) (model : String)
    (p : SDKMethodParam) (hp : p ∈ params) (hnd : (params.map (·.name)).Nodup) :
    (params.map fun q => (q.name, prefillValue q model)).lookup p.name
      = some (prefillValue p model) := by
  induction params with
  | nil => cases hp
  | cons q rest ih =>
    rcases List.mem_cons.mp hp with rfl | hp'
    · simp [List.lookup]
    · have hnd' := List.nodup_cons.mp hnd
      have hne : q.name ≠ p.name := by
        intro he
        have hmem : p.name ∈ rest.map (·.name) := List.mem_map_of_mem (·.name) hp'
        rw [← he] at hmem
        exact hnd'.1 hmem
      have hbeq : (p.name == q.name) = false := beq_eq_false_iff_ne.mpr (Ne.symm hne)
      simp only [List.map_cons, List.lookup, hbeq]
      exact ih hp' hnd'.2

/-- C8: for every registry entry and every declared parameter, the
pre-fill effect binds a parameter of the slug type to the currently
selected workspace slug when one is known (a non-empty `config.model`),
and binds every non-slug parameter to its declared `defaultValue`, or
to the empty string when none is declared. -/
theorem prefill_c8_slug_and_defaults :
    ∀ d ∈ SDK_METHODS, ∀ (model : String), ∀ p ∈ d.params,
      (p.type = .slug → model ≠ "" →
        (prefillMethodArgs d model).lookup p.name = some model) ∧
      (p.type ≠ .slug →
        (prefillMethodArgs d model).lookup p.name = some (p.defaultValue.getD "")) := by
  intro d hd model p hp
  have hall : ∀ d' ∈ SDK_METHODS, ((d'.params.map (·.name)).Nodup) := by decide
  have hnd := hall d hd
  constructor
  · intro hslug hm
    rw [prefillMethodArgs, lookup_prefill_of_mem d.params model p hp hnd]
    simp [prefillValue, hslug, hm]
  · intro hns
    rw [prefillMethodArgs, lookup_prefill_of_mem d.params model p hp hnd]
    cases hdv : p.defaultValue <;> simp [prefillValue, hns, hdv]

/-- C8 witness: selecting the `sendChat` entry with current workspace
slug "finance-docs" binds its slug parameter to exactly
"finance-docs", and binds the non-slug `mode` parameter to its declared
default "chat". -/
theorem prefill_c8_witness :
    (prefillMethodArgs (SDK_METHODS.get ⟨5, by decide⟩) "finance-docs").lookup "slug"
      = some "finance-docs" ∧
    (prefillMethodArgs (SDK_METHODS.get ⟨5, by decide⟩) "finance-docs").lookup "mode"
      = some "chat" := by
  have hs := (prefill_c8_slug_and_defaults (SDK_METHODS.get ⟨5, by decide⟩) (by decide)
      "finance-docs" ((SDK_METHODS.get ⟨5, by decide⟩).params.get ⟨0, by decide⟩) (by decide)).1
      (by decide) (by decide)
  have hm := (prefill_c8_slug_and_defaults (SDK_METHODS.get ⟨5, by decide⟩) (by decide)
      "finance-docs" ((SDK_METHODS.get ⟨5, by decide⟩).params.get ⟨2, by decide⟩) (by decide)).2
      (by decide)
  exact ⟨hs, hm⟩

/-- C9: `getUsers` returns the server-provided ordered user list on a
2xx response; every non-2xx response fails with the privilege-hinting
message plus the status text, so the messages for two failures with
different status texts differ — the distinction lives in the message
text while the error kind is the same thrown message-bearing error. -/
theorem getUsers_c9_privilege_message :
    ∀ (r r' : HttpResponse) (xs : List Json),
      (r.isOk = false →
        getUsersResult (.success r)
          = .error ("Failed to fetch users (May require Admin privilege): " ++ r.statusText)) ∧
      (r.isOk = false → r'.isOk = false → r.statusText ≠ r'.statusText →
        ("Failed to fetch users (May require Admin privilege): " ++ r.statusText : String)
          ≠ "Failed to fetch users (May require Admin privilege): " ++ r'.statusText) ∧
      (r.isOk = true → r.body.getField "users" = some (.arr xs) →
        getUsersResult (.success r) = .ok (.arr xs)) := by
  intro r r' xs
  refine ⟨?_, ?_, ?_⟩
  · intro h
    simp [getUsersResult, h]
  · intro _ _ hne he
    apply hne
    have h1 : ("Failed to fetch users (May require Admin privilege): " : String).data
          ++ r.statusText.data
        = ("Failed to fetch users (May require Admin privilege): " : String).data
          ++ r'.statusText.data := congrArg String.data he
    have h2 := List.append_cancel_left h1
    exact congrArg String.mk h2
  · intro hok hfield
    simp [getUsersResult, hok, hfield, jsOr, Json.truthy]

/-- C9 witness: a 403 Forbidden response yields the privilege-hinting
message with "Forbidden" appended. -/
theorem getUsers_c9_witness :
    getUsersResult
        (.success { status := 403, statusText := "Forbidden", body := .null, bodyText := "" })
      = .error "Failed to fetch users (May require Admin privilege): Forbidden" := by
  have h := (getUsers_c9_privilege_message
      { status := 403, statusText := "Forbidden", body := .null, bodyText := "" }
      { status := 500, statusText := "Internal Server Error", body := .null, bodyText := "" }
      []).1 (by decide)
  exact h

/-- C10: on a 2xx response whose parsed body lacks the expected array
field, the client substitutes an empty list: `getWorkspaces` yields the
empty list without a "workspaces" field, `getUsers` without a "users"
field, and `sendChat` yields empty sources without a "sources" field. -/
theorem missingField_c10_empty_lists :
    ∀ r : HttpResponse, r.isOk = true →
      (r.body.getField "workspaces" = none →
        getWorkspacesResult (.success r) = .ok (.arr [])) ∧
      (r.body.getField "users" = none →
        getUsersResult (.success r) = .ok (.arr [])) ∧
      (r.body.getField "sources" = none →
        sendChatResult (.success r)
          = .ok { textResponse := r.body.getField "textResponse", sources := .arr [] }) := by
  intro r hok
  refine ⟨?_, ?_, ?_⟩ <;> intro hf <;>
    simp [getWorkspacesResult, getUsersResult, sendChatResult, hok, hf, jsOr]

/-- C10 witness: a 200 response with an empty-object body makes all
three operations substitute empty lists. -/
theorem missingField_c10_witness :
    getWorkspacesResult
        (.success { status := 200, statusText := "OK", body := .obj [], bodyText := "" })
      = .ok (.arr []) ∧
    getUsersResult
        (.success { status := 200, statusText := "OK", body := .obj [], bodyText := "" })
      = .ok (.arr []) ∧
    sendChatResult
        (.success { status := 200, statusText := "OK", body := .obj [], bodyText := "" })
      = .ok { textResponse := none, sources := .arr [] } := by
  have h := missingField_c10_empty_lists
      { status := 200, statusText := "OK", body := .obj [], bodyText := "" } (by decide)
  exact ⟨h.1 rfl, h.2.1 rfl, h.2.2 rfl⟩
